import Mathlib

/-!
Verification of the optimizer base layer
(`torch/csrc/api/include/torch/optim/optimizer.h` and
`torch/csrc/api/src/optim/optimizer.cpp`).

Shallow embedding: a tensor handle is an index (`Nat`) into a store
(`List TensorData`), matching the C++ picture where a `Tensor` is a shared
handle to underlying storage.  The optimizer state is a record holding the
flat legacy parameter list, the default options, the group list and the
identity-keyed state map.  Fallible operations (the `TORCH_CHECK` in
`add_param_group`, the bounds-checked `std::vector::at` in the tensor
`buffer_at`) are modelled with an explicit error type.
-/

/-- The gradient attached to a tensor: its numeric contents plus whether a
computation history is still recorded on it (cleared by `detach_`). -/
structure GradData where
  values : List Int
  hasHistory : Bool
deriving DecidableEq, Repr

/-- The data a tensor handle refers to: leafness, device, element dtype,
numeric contents (the shape is the length of `values`), and an optional
gradient (`grad().defined()` is `grad.isSome`). -/
structure TensorData where
  isLeaf : Bool
  device : Nat
  dtype : Nat
  values : List Int
  grad : Option GradData
deriving DecidableEq, Repr

/-- Default tensor used only to read list entries totally (`getD`). -/
def dummyTensor : TensorData :=
  { isLeaf := true, device := 0, dtype := 0, values := [], grad := none }

/-- A tensor handle is an index into the store. -/
abbrev TensorRef := Nat

/-- The store mapping each handle to the tensor data it refers to. -/
abbrev Store := List TensorData

/-- Embeds `param.is_leaf()` for a handle: look the handle up in the store. -/
def isLeafH (store : Store) (h : TensorRef) : Bool :=
  match store[h]? with
  | some t => t.isLeaf
  | none => false

/-- Embeds `torch::zeros_like(t)`: a fresh leaf tensor with the shape, device and
dtype of `t`, contents all zero and no gradient. -/
def zeros_like (t : TensorData) : TensorData :=
  { isLeaf := true, device := t.device, dtype := t.dtype,
    values := t.values.map (fun _ => 0), grad := none }

/-- Embeds `t.to(device, scalar_type)`: the cast-and-copy primitive; produces a
tensor with the requested device and dtype and the same contents. -/
def TensorData.to (t : TensorData) (device dtype : Nat) : TensorData :=
  { t with device := device, dtype := dtype }

/-- Embeds `OptimizerOptions`: a plain value record of hyperparameters
(the concrete fields do not matter to the base layer; one representative
field is enough to observe copy-versus-reference semantics). -/
structure Options where
  lr : Int
deriving DecidableEq, Repr

/-- The default-constructed `OptimizerOptions`. -/
def Options.default0 : Options := { lr := 0 }

/-- Embeds `OptimizerParamGroup`: an ordered sequence of parameter handles with an
optional `Options` override (`has_options()` is `options.isSome`). -/
structure ParamGroup where
  params : List TensorRef
  options : Option Options
deriving DecidableEq, Repr

/-- Embeds `param_group.has_options()`. -/
def ParamGroup.has_options (g : ParamGroup) : Bool := g.options.isSome

/-- Embeds `param_group.set_options(o)`. -/
def ParamGroup.set_options (g : ParamGroup) (o : Options) : ParamGroup :=
  { g with options := some o }

/-- The collections owned by `OptimizerBase`: the flat legacy parameter
list `parameters_`, the defaults `defaults_`, the group list
`param_groups_`, and the identity-keyed state map `state_` (opaque
per-parameter records, modelled as an association list). -/
structure OptimizerBase where
  parameters_ : List TensorRef
  defaults_ : Options
  param_groups_ : List ParamGroup
  state_ : List (TensorRef × Nat)
deriving DecidableEq, Repr

/-- Errors surfaced by the base layer: the `TORCH_CHECK` failure for a
non-leaf parameter, and `std::vector::at` bounds failures. -/
inductive OptimError where
  | invalidParameter
  | outOfRange
deriving DecidableEq, Repr

/-- The single-argument constructor
`OptimizerBase::OptimizerBase(std::vector<Tensor> parameters)`
(optimizer.cpp lines 15-17): it moves the vector into `parameters_` and
leaves every other collection default-constructed.  Its body contains no
check, so it never throws. -/
def OptimizerBase.ofParameterVector (parameters : List TensorRef) :
    Except OptimError OptimizerBase :=
  Except.ok { parameters_ := parameters, defaults_ := Options.default0,
              param_groups_ := [], state_ := [] }

/-- Embeds `OptimizerBase::add_param_group` (optimizer.h lines 60-69): validate
every handle with `TORCH_CHECK(param.is_leaf(), ...)`, then fill in the
defaults when the group carries no options, then append.  The result pairs
the post-call optimizer with the error, if any: a thrown `TORCH_CHECK`
propagates before any statement has mutated the optimizer, so on error the
optimizer is returned as it was. -/
def add_param_group (store : Store) (st : OptimizerBase) (g : ParamGroup) :
    OptimizerBase × Option OptimError :=
  if g.params.all (isLeafH store) then
    let g2 := if g.has_options then g else g.set_options st.defaults_
    ({ st with param_groups_ := st.param_groups_ ++ [g2] }, none)
  else
    (st, some OptimError.invalidParameter)

/-- Embeds `OptimizerBase::add_parameters` (optimizer.cpp lines 19-22). -/
def add_parameters (st : OptimizerBase) (parameters : List TensorRef) :
    OptimizerBase :=
  { st with parameters_ := st.parameters_ ++ parameters }

/-- Embeds `OptimizerBase::size` (optimizer.cpp lines 52-55). -/
def OptimizerBase.size (st : OptimizerBase) : Nat := st.parameters_.length

/-- Embeds `OptimizerBase::parameters` (optimizer.cpp lines 42-50). -/
def OptimizerBase.parameters (st : OptimizerBase) : List TensorRef :=
  st.parameters_

/-- The body of the `zero_grad` loop for one parameter handle: if the
handle's gradient is defined, `detach_` it (drop its history) and `zero_`
it in place; otherwise do nothing. -/
def zeroGradData (t : TensorData) : TensorData :=
  match t.grad with
  | none => t
  | some g =>
    { t with grad := some { values := g.values.map (fun _ => 0),
                            hasHistory := false } }

/-- One `zero_grad` loop iteration acting on the store through a handle. -/
def zeroGradAt (store : Store) (h : TensorRef) : Store :=
  match store[h]? with
  | none => store
  | some t => store.set h (zeroGradData t)

/-- The sequence of handles the two loops of `OptimizerBase::zero_grad`
(optimizer.cpp lines 24-40) visit, in order: first the flat legacy list
`parameters_`, then every group's parameter list. -/
def zeroGradVisits (st : OptimizerBase) : List TensorRef :=
  st.parameters_ ++ (st.param_groups_.map ParamGroup.params).flatten

/-- Embeds `OptimizerBase::zero_grad`: run the loop body over the visit sequence. -/
def zero_grad (st : OptimizerBase) (store : Store) : Store :=
  (zeroGradVisits st).foldl zeroGradAt store

/-- The generic `buffer_at` template (optimizer.h lines 102-110): when
`index` is out of range, `resize` to `index + 1` and `std::fill` the new
slots with `T{0}`; return (the grown vector and) a reference to
`buffers[index]`. -/
def buffer_at {α : Type} [Zero α] [Inhabited α]
    (buffers : List α) (index : Nat) : List α × α :=
  let b2 :=
    if buffers.length ≤ index then
      buffers ++ List.replicate (index + 1 - buffers.length) (0 : α)
    else buffers
  (b2, b2.getD index default)

/-- The growth loop of the tensor-specialized `buffer_at`
(optimizer.cpp lines 59-64): `n` iterations, each pushing
`torch::zeros_like(parameters_.at(i))` where `i` is the current buffer
count; `at` throws when `i` is past the end of `parameters_`. -/
def growLoop (params : List TensorData) (buffers : List TensorData) :
    Nat → Except OptimError (List TensorData)
  | 0 => Except.ok buffers
  | n + 1 =>
    match params[buffers.length]? with
    | none => Except.error OptimError.outOfRange
    | some p => growLoop params (buffers ++ [zeros_like p]) n

/-- The tensor-specialized `OptimizerBase::buffer_at`
(optimizer.cpp lines 57-73): grow out-of-range buffers with
`zeros_like(parameters_.at(i))`, then fetch `parameters_.at(index)` and
`buffers.at(index)`, cast-and-store the buffer when its device or dtype
differs from the parameter's, and return `buffers[index]`.  `params` is
the dereferenced `parameters_` list. -/
def buffer_at_tensor (params : List TensorData)
    (buffers : List TensorData) (index : Nat) :
    Except OptimError (List TensorData × TensorData) :=
  match (if buffers.length ≤ index then
           growLoop params buffers (index + 1 - buffers.length)
         else
           Except.ok buffers) with
  | Except.error e => Except.error e
  | Except.ok bs =>
    match params[index]?, bs[index]? with
    | some parameter, some buffer =>
      let bs2 :=
        if buffer.device ≠ parameter.device ∨ buffer.dtype ≠ parameter.dtype
        then bs.set index (buffer.to parameter.device parameter.dtype)
        else bs
      Except.ok (bs2, bs2.getD index dummyTensor)
    | _, _ => Except.error OptimError.outOfRange

/-! ### Helper lemmas about `zero_grad` -/

/-- Zeroing an already-zeroed gradient changes nothing. -/
lemma zeroGradData_idem (t : TensorData) :
    zeroGradData (zeroGradData t) = zeroGradData t := by
  cases hg : t.grad <;> simp [zeroGradData, hg, List.map_map, Function.comp]

/-- Zeroing leaves a tensor without a gradient untouched. -/
lemma zeroGradData_of_grad_none (t : TensorData) (h : t.grad = none) :
    zeroGradData t = t := by
  simp [zeroGradData, h]

/-- Pointwise effect of one loop iteration on the store. -/
lemma zeroGradAt_getElem? (store : Store) (h j : TensorRef) :
    (zeroGradAt store h)[j]? =
      if j = h then (store[j]?).map zeroGradData else store[j]? := by
  unfold zeroGradAt
  cases hg : store[h]? with
  | none =>
    by_cases hj : j = h
    · subst hj; simp [hg]
    · simp [hj]
  | some t =>
    by_cases hj : j = h
    · subst hj
      have hlt : j < store.length := (List.getElem?_eq_some_iff.mp hg).1
      rw [List.getElem?_set]
      simp [hlt, hg]
    · rw [List.getElem?_set_ne (fun hh => hj hh.symm)]
      simp [hj]

/-- Pointwise effect of running the loop body over a whole visit list. -/
lemma foldl_zeroGradAt_getElem? (l : List TensorRef) (store : Store)
    (j : TensorRef) :
    (l.foldl zeroGradAt store)[j]? =
      if j ∈ l then (store[j]?).map zeroGradData else store[j]? := by
  induction l generalizing store with
  | nil => simp
  | cons h tl ih =>
    simp only [List.foldl_cons]
    rw [ih]
    by_cases hmem : j ∈ tl
    · simp only [hmem, if_true, List.mem_cons, or_true, zeroGradAt_getElem?]
      by_cases hj : j = h
      · simp only [hj, if_true]
        cases store[h]? <;> simp [zeroGradData_idem]
      · simp [hj]
    · by_cases hj : j = h
      · subst hj
        simp [hmem, zeroGradAt_getElem?]
      · simp [hmem, hj, zeroGradAt_getElem?]

/-- Pointwise description of `zero_grad`: a handle in the visit sequence has
its gradient zeroed, every other handle is untouched. -/
lemma zero_grad_getElem? (st : OptimizerBase) (store : Store) (j : TensorRef) :
    (zero_grad st store)[j]? =
      if j ∈ zeroGradVisits st then (store[j]?).map zeroGradData
      else store[j]? :=
  foldl_zeroGradAt_getElem? (zeroGradVisits st) store j

/-! ### Claims about `zero_grad` -/

/-- Claim C5: `zero_grad` is idempotent — running it twice in succession
yields the same store as running it once — and a parameter whose gradient
is undefined is left entirely unaffected (no gradient materialized). -/
theorem c5_zero_grad_idempotent (st : OptimizerBase) (store : Store) :
    zero_grad st (zero_grad st store) = zero_grad st store ∧
    (∀ (j : TensorRef) (t : TensorData), store[j]? = some t → t.grad = none →
      (zero_grad st store)[j]? = some t) := by
  constructor
  · apply List.ext_getElem?
    intro n
    simp only [zero_grad_getElem?]
    by_cases hn : n ∈ zeroGradVisits st
    · simp only [hn, if_true]
      cases store[n]? <;> simp [zeroGradData_idem]
    · simp [hn]
  · intro j t hj hg
    rw [zero_grad_getElem?]
    by_cases hmem : j ∈ zeroGradVisits st
    · simp [hmem, hj, zeroGradData_of_grad_none t hg]
    · simp [hmem, hj]

/-- Store with one gradient-free tensor and one tensor carrying a live
gradient, used to instantiate the `zero_grad` claims. -/
def wStore : Store :=
  [{ isLeaf := true, device := 0, dtype := 0, values := [3], grad := none },
   { isLeaf := true, device := 0, dtype := 0, values := [4],
     grad := some { values := [7], hasHistory := true } }]

/-- Optimizer over `wStore` with both handles in the flat legacy list. -/
def wSt : OptimizerBase :=
  { parameters_ := [0, 1], defaults_ := Options.default0,
    param_groups_ := [], state_ := [] }

/-- Witness for claim C5 at a concrete optimizer and store. -/
theorem c5_witness :
    zero_grad wSt (zero_grad wSt wStore) = zero_grad wSt wStore ∧
    (zero_grad wSt wStore)[0]? =
      some { isLeaf := true, device := 0, dtype := 0, values := [3],
             grad := none } :=
  ⟨(c5_zero_grad_idempotent wSt wStore).1,
   (c5_zero_grad_idempotent wSt wStore).2 0
     { isLeaf := true, device := 0, dtype := 0, values := [3], grad := none }
     (by decide) (by decide)⟩

/-- Optimizer in which handle 0 is reachable both through the flat legacy
parameter list and through a parameter group. -/
def dupSt : OptimizerBase :=
  { parameters_ := [0], defaults_ := Options.default0,
    param_groups_ := [{ params := [0], options := some Options.default0 }],
    state_ := [] }

/-- Claim C2 counterexample: in `dupSt` the handle 0 is reachable through
both the flat legacy list and a group, and a single `zero_grad` call visits
it twice, not at most once: the two loops of the implementation
(optimizer.cpp lines 26-31 and 32-39) do not deduplicate. -/
theorem c2_counterexample :
    (zeroGradVisits dupSt).count 0 = 2 ∧
    ¬ ((zeroGradVisits dupSt).count 0 ≤ 1) := by
  decide

/-- Claim C2 as amended: `zero_grad` visits each parameter once per
occurrence across the flat legacy list and the groups, so a handle
reachable through both is visited at least twice; because per-handle
zeroing is idempotent, the resulting gradient state still equals that of a
single visit. -/
theorem c2_zero_grad_visits_each_occurrence (st : OptimizerBase)
    (store : Store) (p : TensorRef) (g : ParamGroup)
    (hp : p ∈ st.parameters_) (hg : g ∈ st.param_groups_)
    (hpg : p ∈ g.params) :
    2 ≤ (zeroGradVisits st).count p ∧
    (zero_grad st store)[p]? = (store[p]?).map zeroGradData := by
  constructor
  · unfold zeroGradVisits
    rw [List.count_append]
    have h1 : 1 ≤ st.parameters_.count p := List.one_le_count_iff.mpr hp
    have h2 : 1 ≤ ((st.param_groups_.map ParamGroup.params).flatten).count p :=
      List.one_le_count_iff.mpr
        (List.mem_flatten.mpr ⟨g.params, List.mem_map.mpr ⟨g, hg, rfl⟩, hpg⟩)
    omega
  · rw [zero_grad_getElem?]
    have hmem : p ∈ zeroGradVisits st :=
      List.mem_append.mpr (Or.inl hp)
    simp [hmem]

/-- Witness for the amended claim C2 at a concrete optimizer and store. -/
theorem c2_witness :
    2 ≤ (zeroGradVisits dupSt).count 0 ∧
    (zero_grad dupSt wStore)[0]? = (wStore[0]?).map zeroGradData :=
  c2_zero_grad_visits_each_occurrence dupSt wStore 0
    { params := [0], options := some Options.default0 }
    (by decide) (by decide) (by decide)

/-! ### Claims about construction and `add_param_group` -/

/-- Store whose only tensor is a non-leaf (it carries computation
history), so handle 0 is not optimizable. -/
def nonLeafStore : Store :=
  [{ isLeaf := false, device := 0, dtype := 0, values := [1], grad := none }]

/-- Claim C1 counterexample: handle 0 refers to a non-leaf tensor, yet the
single-argument constructor (optimizer.cpp lines 15-17) succeeds instead
of failing with `InvalidParameter`: its body only moves the vector into
`parameters_` and performs no leaf validation at all. -/
theorem c1_counterexample :
    isLeafH nonLeafStore 0 = false ∧
    OptimizerBase.ofParameterVector [0] =
      Except.ok { parameters_ := [0], defaults_ := Options.default0,
                  param_groups_ := [], state_ := [] } := by
  constructor <;> rfl

/-- Claim C1 as amended: the single-argument constructor performs no leaf
validation — for every vector of handles, leaf or not, construction
succeeds, the optimizer's flat parameter list equals the given vector, and
the group list and state map are left empty. -/
theorem c1_flat_ctor_no_validation (parameters : List TensorRef) :
    ∃ st, OptimizerBase.ofParameterVector parameters = Except.ok st ∧
      st.parameters = parameters ∧ st.size = parameters.length ∧
      st.param_groups_ = [] ∧ st.state_ = [] :=
  ⟨_, rfl, rfl, rfl, rfl, rfl⟩

/-- Claim C3: `add_param_group` is atomic with respect to validation
failure — a group containing a non-leaf handle makes the call fail with
`InvalidParameter` and return the optimizer exactly as it was, while an
all-leaf group succeeds and appends exactly one group to the group list,
touching nothing else. -/
theorem c3_add_param_group_atomic (store : Store) (st : OptimizerBase)
    (g : ParamGroup) :
    ((∃ p ∈ g.params, isLeafH store p = false) →
      add_param_group store st g = (st, some OptimError.invalidParameter)) ∧
    ((∀ p ∈ g.params, isLeafH store p = true) →
      (add_param_group store st g).2 = none ∧
      ∃ g2, (add_param_group store st g).1 =
        { st with param_groups_ := st.param_groups_ ++ [g2] }) := by
  constructor
  · rintro ⟨p, hp, hleaf⟩
    have hall : g.params.all (isLeafH store) = false := by
      cases hA : g.params.all (isLeafH store) with
      | false => rfl
      | true =>
        have := List.all_eq_true.mp hA p hp
        rw [hleaf] at this
        exact absurd this (by simp)
    unfold add_param_group
    simp [hall]
  · intro hall
    have hA : g.params.all (isLeafH store) = true := List.all_eq_true.mpr hall
    unfold add_param_group
    rw [if_pos hA]
    exact ⟨rfl, _, rfl⟩

/-- Store with two leaf tensors, for the successful-registration cases. -/
def leafStore : Store :=
  [{ isLeaf := true, device := 0, dtype := 0, values := [1], grad := none },
   { isLeaf := true, device := 0, dtype := 0, values := [2], grad := none }]

/-- Optimizer used as the prior state in the group-registration claims. -/
def baseSt : OptimizerBase :=
  { parameters_ := [1], defaults_ := { lr := 5 },
    param_groups_ := [{ params := [1], options := some { lr := 9 } }],
    state_ := [(1, 0)] }

/-- Witness for claim C3: the failing branch at a non-leaf group and the
succeeding branch at an all-leaf group, at concrete inputs. -/
theorem c3_witness :
    add_param_group nonLeafStore baseSt { params := [0], options := none } =
      (baseSt, some OptimError.invalidParameter) ∧
    ((add_param_group leafStore baseSt
        { params := [0], options := none }).2 = none ∧
      ∃ g2, (add_param_group leafStore baseSt
        { params := [0], options := none }).1 =
        { baseSt with param_groups_ := baseSt.param_groups_ ++ [g2] }) :=
  ⟨(c3_add_param_group_atomic nonLeafStore baseSt
      { params := [0], options := none }).1 ⟨0, by decide, by decide⟩,
   (c3_add_param_group_atomic leafStore baseSt
      { params := [0], options := none }).2 (by decide)⟩

/-- Claim C4: a group added without explicit `Options` receives a copy of
the optimizer's defaults as they are at the time of the call, and a later
change to the optimizer's defaults leaves that group's options unchanged;
a group added with explicit `Options` keeps them unmodified. -/
theorem c4_options_snapshot (store : Store) (st : OptimizerBase)
    (g : ParamGroup) (d2 : Options)
    (hleaf : g.params.all (isLeafH store) = true) :
    (g.options = none →
      ((add_param_group store st g).1.param_groups_.getLast? =
          some { g with options := some st.defaults_ } ∧
        ({ (add_param_group store st g).1 with defaults_ := d2
          }).param_groups_.getLast? =
          some { g with options := some st.defaults_ })) ∧
    (∀ o, g.options = some o →
      (add_param_group store st g).1.param_groups_.getLast? = some g) := by
  unfold add_param_group
  simp only [hleaf, if_true]
  constructor
  · intro hnone
    have hopt : g.has_options = false := by
      simp [ParamGroup.has_options, hnone]
    simp [hopt, ParamGroup.set_options, List.getLast?_concat]
  · intro o ho
    have hopt : g.has_options = true := by
      simp [ParamGroup.has_options, ho]
    simp [hopt, List.getLast?_concat]

/-- Witness for claim C4 at concrete inputs: the optimizer's defaults are
`lr = 5` at registration time and are changed to `lr = 7` afterwards; the
group registered without options keeps `lr = 5`, and a group registered
with explicit options `lr = 3` keeps them. -/
theorem c4_witness :
    ((add_param_group leafStore baseSt
        { params := [0], options := none }).1.param_groups_.getLast? =
      some { params := [0], options := some { lr := 5 } } ∧
      ({ (add_param_group leafStore baseSt
          { params := [0], options := none }).1 with defaults_ := { lr := 7 }
        }).param_groups_.getLast? =
        some { params := [0], options := some { lr := 5 } }) ∧
    (add_param_group leafStore baseSt
        { params := [0], options := some { lr := 3 }
        }).1.param_groups_.getLast? =
      some { params := [0], options := some { lr := 3 } } :=
  ⟨(c4_options_snapshot leafStore baseSt { params := [0], options := none }
      { lr := 7 } (by decide)).1 rfl,
   (c4_options_snapshot leafStore baseSt
      { params := [0], options := some { lr := 3 } }
      { lr := 7 } (by decide)).2 { lr := 3 } rfl⟩

/-- Claim C9: `size` is exactly the length of the flat legacy parameter
list and `parameters` is exactly that list; `add_param_group` leaves the
legacy list, the state map and the defaults unchanged — it either leaves
the group list as-is (on validation failure) or appends exactly one
group. -/
theorem c9_size_parameters_frame (store : Store) (st : OptimizerBase)
    (g : ParamGroup) :
    st.size = st.parameters_.length ∧
    st.parameters = st.parameters_ ∧
    (add_param_group store st g).1.parameters_ = st.parameters_ ∧
    (add_param_group store st g).1.size = st.size ∧
    (add_param_group store st g).1.state_ = st.state_ ∧
    (add_param_group store st g).1.defaults_ = st.defaults_ ∧
    ((add_param_group store st g).1.param_groups_ = st.param_groups_ ∨
      ∃ g2, (add_param_group store st g).1.param_groups_ =
        st.param_groups_ ++ [g2]) := by
  unfold add_param_group
  by_cases hA : g.params.all (isLeafH store) = true
  · rw [if_pos hA]
    exact ⟨rfl, rfl, rfl, rfl, rfl, rfl, Or.inr ⟨_, rfl⟩⟩
  · rw [if_neg hA]
    exact ⟨rfl, rfl, rfl, rfl, rfl, rfl, Or.inl rfl⟩

/-! ### Claims about the generic `buffer_at` -/

/-- Claim C6: for the generic `buffer_at`, an out-of-range index grows the
buffer vector to length exactly `index + 1`, filling every new slot with
the zero of the element type and leaving every pre-existing slot
unchanged, while an in-range index leaves the vector untouched; in both
cases the returned value is the element at `index`. -/
theorem c6_buffer_at_generic {α : Type} [Zero α] [Inhabited α]
    (buffers : List α) (index : Nat) :
    (buffers.length ≤ index →
      (buffer_at buffers index).1.length = index + 1 ∧
      (∀ i, i < buffers.length →
        (buffer_at buffers index).1[i]? = buffers[i]?) ∧
      (∀ i, buffers.length ≤ i → i ≤ index →
        (buffer_at buffers index).1[i]? = some (0 : α))) ∧
    (index < buffers.length → (buffer_at buffers index).1 = buffers) ∧
    (buffer_at buffers index).1[index]? = some (buffer_at buffers index).2 := by
  unfold buffer_at
  by_cases h : buffers.length ≤ index
  · rw [if_pos h]
    refine ⟨fun _ => ⟨?_, ?_, ?_⟩, fun h2 => by omega, ?_⟩
    · simp only [List.length_append, List.length_replicate]
      omega
    · intro i hi
      exact List.getElem?_append_left hi
    · intro i h1 h2
      rw [List.getElem?_append_right h1, List.getElem?_replicate,
        if_pos (by omega)]
    · have hlt : index <
          (buffers ++ List.replicate (index + 1 - buffers.length) (0 : α)).length := by
        simp only [List.length_append, List.length_replicate]
        omega
      have hv : (buffers ++ List.replicate (index + 1 - buffers.length) (0 : α))[index]? =
          some (buffers ++ List.replicate (index + 1 - buffers.length) (0 : α))[index] :=
        List.getElem?_eq_some_iff.mpr ⟨hlt, rfl⟩
      simp only [List.getD_eq_getElem?_getD, hv]
      rfl
  · rw [if_neg h]
    refine ⟨fun h2 => by omega, fun _ => rfl, ?_⟩
    have hlt : index < buffers.length := by omega
    have hv : buffers[index]? = some buffers[index] :=
      List.getElem?_eq_some_iff.mpr ⟨hlt, rfl⟩
    simp only [List.getD_eq_getElem?_getD, hv]
    rfl

/-- Witness for claim C6 at concrete integer buffer vectors: one growing
call and one in-range call. -/
theorem c6_witness :
    (buffer_at ([3, 4] : List Int) 4).1.length = 4 + 1 ∧
    (buffer_at ([3, 4] : List Int) 4).1[1]? = ([3, 4] : List Int)[1]? ∧
    (buffer_at ([3, 4] : List Int) 4).1[3]? = some (0 : Int) ∧
    (buffer_at ([3, 4] : List Int) 1).1 = [3, 4] ∧
    (buffer_at ([3, 4] : List Int) 4).1[4]? =
      some (buffer_at ([3, 4] : List Int) 4).2 :=
  ⟨((c6_buffer_at_generic [3, 4] 4).1 (by decide)).1,
   ((c6_buffer_at_generic [3, 4] 4).1 (by decide)).2.1 1 (by decide),
   ((c6_buffer_at_generic [3, 4] 4).1 (by decide)).2.2 3 (by decide) (by decide),
   (c6_buffer_at_generic [3, 4] 1).2.1 (by decide),
   (c6_buffer_at_generic [3, 4] 4).2.2⟩

/-! ### Helper lemmas about the tensor-specialized `buffer_at` -/

/-- The growth loop fails with a bounds error as soon as it has to read a
parameter past the end of the parameter list. -/
lemma growLoop_oob (params : List TensorData) (n : Nat) :
    ∀ buffers : List TensorData,
      params.length < buffers.length + n → 0 < n →
      growLoop params buffers n = Except.error OptimError.outOfRange := by
  induction n with
  | zero => intro buffers _ h0; omega
  | succ m ih =>
    intro buffers h _
    unfold growLoop
    cases hp : params[buffers.length]? with
    | none => rfl
    | some p =>
      have hlt : buffers.length < params.length :=
        (List.getElem?_eq_some_iff.mp hp).1
      have hm : 0 < m := by omega
      exact ih (buffers ++ [zeros_like p])
        (by simp only [List.length_append, List.length_singleton]; omega) hm

/-- When the parameter list covers all requested slots, the growth loop
succeeds, keeps every old slot, and fills slot `j` with
`zeros_like params[j]`. -/
lemma growLoop_ok (params : List TensorData) (n : Nat) :
    ∀ buffers : List TensorData, buffers.length + n ≤ params.length →
      ∃ bs, growLoop params buffers n = Except.ok bs ∧
        bs.length = buffers.length + n ∧
        (∀ j, j < buffers.length → bs[j]? = buffers[j]?) ∧
        (∀ j, buffers.length ≤ j → j < buffers.length + n →
          bs[j]? = (params[j]?).map zeros_like) := by
  induction n with
  | zero =>
    intro buffers _
    exact ⟨buffers, rfl, by omega, fun j _ => rfl, fun j h1 h2 => by omega⟩
  | succ m ih =>
    intro buffers h
    have hlt : buffers.length < params.length := by omega
    have hp : params[buffers.length]? = some params[buffers.length] :=
      List.getElem?_eq_some_iff.mpr ⟨hlt, rfl⟩
    obtain ⟨bs, hrun, hlen, hold, hnew⟩ :=
      ih (buffers ++ [zeros_like params[buffers.length]])
        (by simp only [List.length_append, List.length_singleton]; omega)
    have hlen2 : bs.length = buffers.length + (m + 1) := by
      simp only [List.length_append, List.length_singleton] at hlen
      omega
    refine ⟨bs, ?_, hlen2, ?_, ?_⟩
    · unfold growLoop
      rw [hp]
      exact hrun
    · intro j hj
      rw [hold j (by simp only [List.length_append, List.length_singleton]; omega)]
      exact List.getElem?_append_left hj
    · intro j h1 h2
      by_cases hje : j = buffers.length
      · rw [hje,
          hold buffers.length
            (by simp only [List.length_append, List.length_singleton]; omega),
          List.getElem?_concat_length, hp]
        rfl
      · rw [hnew j
          (by simp only [List.length_append, List.length_singleton]; omega)
          (by simp only [List.length_append, List.length_singleton]; omega)]

/-- Calling the tensor `buffer_at` on an in-range buffer that already has
the device and dtype of the corresponding parameter returns the buffer
vector unchanged and the cached entry: no growth, no cast, no store. -/
lemma buffer_at_tensor_cached (params bs : List TensorData) (index : Nat)
    (p t : TensorData) (hp : params[index]? = some p)
    (hb : bs[index]? = some t)
    (hd : t.device = p.device) (hdt : t.dtype = p.dtype) :
    buffer_at_tensor params bs index = Except.ok (bs, t) := by
  have hlt : index < bs.length := (List.getElem?_eq_some_iff.mp hb).1
  unfold buffer_at_tensor
  rw [if_neg (by omega)]
  simp only [hp, hb]
  rw [if_neg (by simp [hd, hdt])]
  simp only [List.getD_eq_getElem?_getD, hb]
  rfl

/-- Full description of a successful tensor `buffer_at` call: the
parameter at `index` exists, the result has length `max old (index+1)`,
the returned entry matches the parameter's device and dtype, old slots
other than `index` are kept, slots created by growth hold
`zeros_like params[j]`, and for an in-range call the vector is unchanged
exactly when the buffer already matched the parameter, and otherwise is
the old vector with the cast entry stored at `index`. -/
lemma buffer_at_tensor_ok (params buffers bs : List TensorData)
    (index : Nat) (t : TensorData)
    (h : buffer_at_tensor params buffers index = Except.ok (bs, t)) :
    ∃ p, params[index]? = some p ∧
      bs.length = max buffers.length (index + 1) ∧
      bs[index]? = some t ∧
      t.device = p.device ∧ t.dtype = p.dtype ∧
      (∀ j, j < buffers.length → j ≠ index → bs[j]? = buffers[j]?) ∧
      (∀ j, buffers.length ≤ j → j < index →
        bs[j]? = (params[j]?).map zeros_like) ∧
      (buffers.length ≤ index →
        bs[index]? = (params[index]?).map zeros_like) ∧
      (index < buffers.length →
        (((buffers.getD index dummyTensor).device = p.device ∧
          (buffers.getD index dummyTensor).dtype = p.dtype) → bs = buffers) ∧
        (((buffers.getD index dummyTensor).device ≠ p.device ∨
          (buffers.getD index dummyTensor).dtype ≠ p.dtype) →
          bs = buffers.set index
            ((buffers.getD index dummyTensor).to p.device p.dtype))) := by
  unfold buffer_at_tensor at h
  by_cases hg : buffers.length ≤ index
  · rw [if_pos hg] at h
    cases hrun : growLoop params buffers (index + 1 - buffers.length) with
    | error e =>
      rw [hrun] at h
      exact Except.noConfusion h
    | ok bs0 =>
      simp only [hrun] at h
      cases hpi : params[index]? with
      | none =>
        simp only [hpi] at h
        exact Except.noConfusion h
      | some p =>
        have hip : index < params.length := (List.getElem?_eq_some_iff.mp hpi).1
        obtain ⟨bs1, hrun1, hlen1, hold1, hnew1⟩ :=
          growLoop_ok params (index + 1 - buffers.length) buffers (by omega)
        have hbs01 : bs0 = bs1 := by
          have h2 := hrun.symm.trans hrun1
          injection h2
        subst hbs01
        have hlen0 : bs0.length = index + 1 := by omega
        have hbi : bs0[index]? = some (zeros_like p) := by
          rw [hnew1 index hg (by omega), hpi]
          rfl
        simp only [hpi, hbi] at h
        rw [if_neg (by simp [zeros_like])] at h
        have hgd : bs0.getD index dummyTensor = zeros_like p := by
          rw [List.getD_eq_getElem?_getD, hbi]
          rfl
        rw [hgd] at h
        injection h with hpair
        rw [Prod.mk.injEq] at hpair
        obtain ⟨hbs, ht⟩ := hpair
        subst hbs
        subst ht
        refine ⟨p, rfl, by omega, hbi, rfl, rfl, ?_, ?_, ?_, ?_⟩
        · intro j hj _
          rw [hold1 j hj]
        · intro j h1 h2
          exact hnew1 j h1 (by omega)
        · intro _
          rw [hbi]
          rfl
        · intro hlt2
          exact absurd hlt2 (by omega)
  · rw [if_neg hg] at h
    have hlt : index < buffers.length := by omega
    have hbi : buffers[index]? = some buffers[index] :=
      List.getElem?_eq_some_iff.mpr ⟨hlt, rfl⟩
    have hgdb : buffers.getD index dummyTensor = buffers[index] := by
      rw [List.getD_eq_getElem?_getD, hbi]
      rfl
    cases hpi : params[index]? with
    | none =>
      simp only [hpi] at h
      exact Except.noConfusion h
    | some p =>
      simp only [hpi, hbi] at h
      by_cases hc : buffers[index].device ≠ p.device ∨
          buffers[index].dtype ≠ p.dtype
      · rw [if_pos hc] at h
        have hBi : (buffers.set index
            (buffers[index].to p.device p.dtype))[index]? =
            some (buffers[index].to p.device p.dtype) := by
          rw [List.getElem?_set]
          simp [hlt]
        have hgd : (buffers.set index
            (buffers[index].to p.device p.dtype)).getD index dummyTensor =
            buffers[index].to p.device p.dtype := by
          rw [List.getD_eq_getElem?_getD, hBi]
          rfl
        rw [hgd] at h
        injection h with hpair
        rw [Prod.mk.injEq] at hpair
        obtain ⟨hbs, ht⟩ := hpair
        subst hbs
        subst ht
        refine ⟨p, rfl, ?_, hBi, rfl, rfl, ?_, ?_, ?_, ?_⟩
        · rw [List.length_set]
          omega
        · intro j _ hne
          exact List.getElem?_set_ne (fun he => hne he.symm)
        · intro j h1 h2
          omega
        · intro h1
          omega
        · intro _
          constructor
          · rintro ⟨h1, h2⟩
            rw [hgdb] at h1 h2
            rcases hc with hc | hc
            · exact absurd h1 hc
            · exact absurd h2 hc
          · intro _
            rw [hgdb]
      · rw [if_neg hc] at h
        rw [hgdb] at h
        injection h with hpair
        rw [Prod.mk.injEq] at hpair
        obtain ⟨hbs, ht⟩ := hpair
        subst hbs
        subst ht
        push_neg at hc
        refine ⟨p, rfl, by omega, hbi, hc.1, hc.2, ?_, ?_, ?_, ?_⟩
        · intro j _ _
          rfl
        · intro j h1 h2
          omega
        · intro h1
          omega
        · intro _
          constructor
          · intro _
            rfl
          · intro hcc
            rw [hgdb] at hcc
            rcases hcc with hcc | hcc
            · exact absurd hc.1 hcc
            · exact absurd hc.2 hcc

/-! ### Claims about the tensor-specialized `buffer_at` -/

/-- Claim C10: the tensor-specialized `buffer_at` is only defined for
`index < parameters_.size()` — whenever `index` is at or beyond the length
of the parameter list the call throws a bounds error instead of returning
a buffer, regardless of the buffer vector's length, because both the
growth loop and the post-growth fetch use the bounds-checked
`parameters_.at`. -/
theorem c10_buffer_at_tensor_oob (params buffers : List TensorData)
    (index : Nat) (h : params.length ≤ index) :
    buffer_at_tensor params buffers index =
      Except.error OptimError.outOfRange := by
  unfold buffer_at_tensor
  by_cases hb : buffers.length ≤ index
  · rw [if_pos hb, growLoop_oob params (index + 1 - buffers.length) buffers
      (by omega) (by omega)]
  · rw [if_neg hb]
    have hp : params[index]? = none := List.getElem?_eq_none h
    simp only [hp]

/-- Witness for claim C10: with an empty parameter list, index 0 throws
both when the buffer vector is shorter and when it is longer than the
index. -/
theorem c10_witness :
    buffer_at_tensor [] [] 0 = Except.error OptimError.outOfRange ∧
    buffer_at_tensor [] [dummyTensor] 0 =
      Except.error OptimError.outOfRange :=
  ⟨c10_buffer_at_tensor_oob [] [] 0 (by decide),
   c10_buffer_at_tensor_oob [] [dummyTensor] 0 (by decide)⟩

/-- Claim C7: every successful tensor-specialized `buffer_at` call leaves
the buffer at `index` with the device and dtype of `parameters_[index]`;
for an in-range call the vector is kept when the buffer already matched
and a cast-and-store into slot `index` happens exactly when it differed;
and a repeated call on the result returns the same cached buffer vector
and entry, with no further change. -/
theorem c7_buffer_at_tensor_coercion (params buffers bs : List TensorData)
    (index : Nat) (t : TensorData)
    (h : buffer_at_tensor params buffers index = Except.ok (bs, t)) :
    ∃ p, params[index]? = some p ∧
      bs[index]? = some t ∧ t.device = p.device ∧ t.dtype = p.dtype ∧
      buffer_at_tensor params bs index = Except.ok (bs, t) ∧
      (index < buffers.length →
        (((buffers.getD index dummyTensor).device = p.device ∧
          (buffers.getD index dummyTensor).dtype = p.dtype) → bs = buffers) ∧
        (((buffers.getD index dummyTensor).device ≠ p.device ∨
          (buffers.getD index dummyTensor).dtype ≠ p.dtype) →
          bs = buffers.set index
            ((buffers.getD index dummyTensor).to p.device p.dtype))) := by
  obtain ⟨p, hp, _, hbt, hd, hdt, _, _, _, hextra⟩ :=
    buffer_at_tensor_ok params buffers bs index t h
  exact ⟨p, hp, hbt, hd, hdt,
    buffer_at_tensor_cached params bs index p t hp hbt hd hdt, hextra⟩

/-- One-parameter list for the C7 witness: the parameter lives on
device 0. -/
def c7params : List TensorData :=
  [{ isLeaf := true, device := 0, dtype := 0, values := [1], grad := none }]

/-- One-buffer vector for the C7 witness: the cached buffer is on
device 1 and must be cast back to the parameter's device. -/
def c7buffers : List TensorData :=
  [{ isLeaf := true, device := 1, dtype := 0, values := [9], grad := none }]

/-- Witness for claim C7 at a concrete mismatched buffer: the call stores
the cast entry and a repeated call is stable. -/
theorem c7_witness :
    ∃ p, c7params[0]? = some p ∧
      ([{ isLeaf := true, device := 0, dtype := 0, values := [9],
          grad := none }] : List TensorData)[0]? =
        some { isLeaf := true, device := 0, dtype := 0, values := [9],
               grad := none } ∧
      ({ isLeaf := true, device := 0, dtype := 0, values := [9],
         grad := none } : TensorData).device = p.device ∧
      ({ isLeaf := true, device := 0, dtype := 0, values := [9],
         grad := none } : TensorData).dtype = p.dtype ∧
      buffer_at_tensor c7params
        [{ isLeaf := true, device := 0, dtype := 0, values := [9],
           grad := none }] 0 =
        Except.ok ([{ isLeaf := true, device := 0, dtype := 0,
                      values := [9], grad := none }],
          { isLeaf := true, device := 0, dtype := 0, values := [9],
            grad := none }) ∧
      (0 < c7buffers.length →
        (((c7buffers.getD 0 dummyTensor).device = p.device ∧
          (c7buffers.getD 0 dummyTensor).dtype = p.dtype) →
          [{ isLeaf := true, device := 0, dtype := 0, values := [9],
             grad := none }] = c7buffers) ∧
        (((c7buffers.getD 0 dummyTensor).device ≠ p.device ∨
          (c7buffers.getD 0 dummyTensor).dtype ≠ p.dtype) →
          ([{ isLeaf := true, device := 0, dtype := 0, values := [9],
              grad := none }] : List TensorData) = c7buffers.set 0
            ((c7buffers.getD 0 dummyTensor).to p.device p.dtype))) :=
  c7_buffer_at_tensor_coercion c7params c7buffers
    [{ isLeaf := true, device := 0, dtype := 0, values := [9],
       grad := none }] 0
    { isLeaf := true, device := 0, dtype := 0, values := [9], grad := none }
    (by rfl)

/-- Six parameters whose shapes and devices differ across indices: index 0
lives on device 1 with two elements, index 5 on device 0 with three. -/
def mixedParams : List TensorData :=
  [{ isLeaf := true, device := 1, dtype := 0, values := [1, 1], grad := none },
   { isLeaf := true, device := 0, dtype := 0, values := [1], grad := none },
   { isLeaf := true, device := 0, dtype := 0, values := [1], grad := none },
   { isLeaf := true, device := 0, dtype := 0, values := [1], grad := none },
   { isLeaf := true, device := 0, dtype := 0, values := [1], grad := none },
   { isLeaf := true, device := 0, dtype := 0, values := [2, 2, 2],
     grad := none }]

/-- Claim C8 counterexample: calling the tensor `buffer_at` with index 5
on an empty buffer sequence succeeds, but entry 0 of the grown sequence
has device 1 and two elements while `parameters_[5]` has device 0 and
three elements — the new entries are shaped and placed to match
`parameters_[i]` for each index `i`, not `parameters_[5]`. -/
theorem c8_counterexample :
    (buffer_at_tensor mixedParams [] 5).toOption.map
        (fun r => ((r.1.getD 0 dummyTensor).device,
                   (r.1.getD 0 dummyTensor).values.length)) = some (1, 2) ∧
    (mixedParams.getD 5 dummyTensor).device = 0 ∧
    (mixedParams.getD 5 dummyTensor).values.length = 3 := by
  decide

/-- Claim C8 as amended: the tensor `buffer_at` called with index 5 on an
empty buffer sequence grows the sequence to length 6, and every entry `i`
is `zeros_like parameters_[i]` — a zero-valued tensor shaped and placed to
match `parameters_[i]` (in particular entry 5 matches `parameters_[5]`,
and entry 5 is the value returned). -/
theorem c8_buffer_at_growth (params bs : List TensorData) (t : TensorData)
    (h : buffer_at_tensor params [] 5 = Except.ok (bs, t)) :
    bs.length = 6 ∧
    (∀ i, i ≤ 5 → bs[i]? = (params[i]?).map zeros_like) ∧
    bs[5]? = some t := by
  obtain ⟨p, hp, hlen, hbt, hd, hdt, hold, hnew, hidx, _⟩ :=
    buffer_at_tensor_ok params [] bs 5 t h
  refine ⟨by simpa using hlen, ?_, hbt⟩
  intro i hi
  by_cases hie : i = 5
  · rw [hie]
    exact hidx (Nat.zero_le 5)
  · exact hnew i (Nat.zero_le i) (by omega)

/-- Six identical parameters for the C8 witness. -/
def sixParams : List TensorData :=
  List.replicate 6
    { isLeaf := true, device := 0, dtype := 0, values := [1], grad := none }

/-- The grown buffer vector for the C8 witness: six zero tensors. -/
def sixZeros : List TensorData :=
  List.replicate 6
    { isLeaf := true, device := 0, dtype := 0, values := [0], grad := none }

/-- Witness for the amended claim C8 at a concrete parameter list. -/
theorem c8_witness :
    sixZeros.length = 6 ∧
    (∀ i, i ≤ 5 → sixZeros[i]? = (sixParams[i]?).map zeros_like) ∧
    sixZeros[5]? =
      some { isLeaf := true, device := 0, dtype := 0, values := [0],
             grad := none } :=
  c8_buffer_at_growth sixParams sixZeros
    { isLeaf := true, device := 0, dtype := 0, values := [0], grad := none }
    (by rfl)
